import Mathlib

/-!
Verification of the floating-IP lifecycle manager
(`nova/network/floating_ips.py`, class `FloatingIP`).

The manager's methods are embedded as pure Lean functions over an explicit
`Store` (the external Store Gateway's records), a `Cfg` (the manager's
configuration: `CONF.public_interface` and `self.host`), and a `Ctx`
(the request context).  External collaborators that can fail
independently of the store contents (the Quota Gateway's `reserve`, the
store's pool allocator and releaser, the L3 driver's `add_floating_ip`)
are modelled by oracle parameters giving the outcome of the call, since
per the code they are opaque out-of-process calls.  Every observable
side effect (quota reserve/commit/rollback, store mutations, L3 driver
invocations, RPC dispatch, notifications, warning logs) is recorded in
an event trace so that claims about "exactly one commit", "zero driver
calls", etc. are statements about the trace.
-/

namespace Nova

/-- FloatingIP record of the store (table `floating_ips`): address is the
unique key; `project_id` is the owning project (`none` = unallocated);
`fixed_ip_id` is the bound fixed-ip id (`none` = unassociated);
`auto_assigned`, `host` and `interface` as in the code. -/
structure FloatingIPRec where
  address : String
  pool : String
  project_id : Option String
  fixed_ip_id : Option Nat
  auto_assigned : Bool
  host : Option String
  interface : Option String
deriving DecidableEq, Repr

/-- FixedIP record of the store. -/
structure FixedIPRec where
  id : Nat
  address : String
  instance_uuid : String
  network_id : Nat
deriving DecidableEq, Repr

/-- Network record of the store. -/
structure NetworkRec where
  id : Nat
  multi_host : Bool
  host : Option String
deriving DecidableEq, Repr

/-- Instance record of the store (only the fields the manager reads). -/
structure InstanceRec where
  uuid : String
  host : String
deriving DecidableEq, Repr

/-- Service record: a network service registered for a host, with the
servicegroup API's liveness verdict (`servicegroup_api.service_is_up`)
recorded as `alive`. -/
structure ServiceRec where
  host : String
  alive : Bool
deriving DecidableEq, Repr

/-- The Store Gateway's state: one list per record kind. -/
structure Store where
  floating_ips : List FloatingIPRec
  fixed_ips : List FixedIPRec
  networks : List NetworkRec
  instances : List InstanceRec
  services : List ServiceRec
deriving DecidableEq, Repr

/-- Request context: `context.is_admin` and `context.project_id`. -/
structure Ctx where
  is_admin : Bool
  project_id : Option String
deriving DecidableEq, Repr

/-- Manager configuration: `CONF.public_interface` (the empty string is
Python-falsy, i.e. unset) and `self.host`. -/
structure Cfg where
  public_interface : String
  selfHost : Option String
deriving DecidableEq, Repr

/-- Exceptions raised by the manager or its collaborators. -/
inductive Exc where
  | NotAuthorized
  | FloatingIpLimitExceeded
  | FloatingIpNotFoundForAddress (address : String)
  | FloatingIpAssociated (address : String)
  | FloatingIpNotAssociated (address : String)
  | CannotDisassociateAutoAssignedFloatingIP
  | NoFloatingIpInterface (iface : Option String)
  | ProcessExecutionError (msg : String)
  | FixedIpNotFound
  | NetworkNotFound
  | InstanceNotFound
  | StoreFailure
deriving DecidableEq, Repr

/-- Observable side effects, recorded in order of occurrence. -/
inductive Event where
  | quotaReserve (delta : Int)
  | quotaCommit
  | quotaRollback
  | storeAllocate (project pool : String)
  | storeDeallocate (address : String)
  | storeBind (floating fixedAddr : String)
  | storeUnbind (address : String)
  | storeUpdateHost (address : String) (host : Option String)
  | driverAdd (floating fixedAddr : String) (iface : Option String)
  | driverRemove (floating fixedAddr : String) (iface : Option String)
  | driverCleanConntrack (fixedAddr : String)
  | notify (tag : String)
  | rpcAssociate (host : Option String)
  | rpcDisassociate (host : Option String)
  | logWarn (tag : String)
deriving DecidableEq, Repr

instance {ε α : Type} [DecidableEq ε] [DecidableEq α] : DecidableEq (Except ε α) := fun x y =>
  match x, y with
  | .ok a, .ok b =>
      if h : a = b then .isTrue (by rw [h])
      else .isFalse (fun hh => h (Except.ok.inj hh))
  | .error a, .error b =>
      if h : a = b then .isTrue (by rw [h])
      else .isFalse (fun hh => h (Except.error.inj hh))
  | .ok _, .error _ => .isFalse (fun hh => Except.noConfusion hh)
  | .error _, .ok _ => .isFalse (fun hh => Except.noConfusion hh)

/-- Result of a manager call: outcome (normal return or raised
exception), store after the call, and the event trace of the call. -/
structure Res (α : Type) where
  out : Except Exc α
  store : Store
  events : List Event
deriving DecidableEq

/-- Python truthiness of an optional string (`None` and `''` are falsy). -/
def truthyStr : Option String → Bool
  | none => false
  | some s => !(s == "")

/-- Leading-segment test on character lists: `listLeads hay needle` is
true when `needle` is an initial segment of `hay`. -/
def listLeads : List Char → List Char → Bool
  | _, [] => true
  | [], _ :: _ => false
  | a :: as, b :: bs => a == b && listLeads as bs

/-- Occurrence test on character lists: true when `needle` occurs as a
contiguous segment of `hay`. -/
def listHasSub : List Char → List Char → Bool
  | [], needle => needle.isEmpty
  | a :: rest, needle => listLeads (a :: rest) needle || listHasSub rest needle

/-- Python substring test `needle in msg`, used for the driver error
message check `"Cannot find device" in str(e)`. -/
def containsSub (msg needle : String) : Bool :=
  listHasSub msg.toList needle.toList

/-! ## Store Gateway operations

The store itself is an external collaborator (spec section 1); its
operations are modelled as record lookups/updates on `Store`.  The
conditional bind/unbind primitives follow the spec's contract (sections
4.2/4.3: "If the store reports the address was already bound (a race
with another actor), treat as success", "if it was already clear
(race), stop"). -/

/-- Store op `floating_ip_get_by_address` (without the raise; callers
turn `none` into `FloatingIpNotFoundForAddress`). -/
def floating_ip_get_by_address (st : Store) (address : String) : Option FloatingIPRec :=
  st.floating_ips.find? (fun r => r.address == address)

/-- Store op `fixed_ip_get` by id. -/
def fixed_ip_get (st : Store) (id : Nat) : Option FixedIPRec :=
  st.fixed_ips.find? (fun r => r.id == id)

/-- Store op `fixed_ip_get_by_address`. -/
def fixed_ip_get_by_address (st : Store) (address : String) : Option FixedIPRec :=
  st.fixed_ips.find? (fun r => r.address == address)

/-- Store op `network_get`. -/
def network_get (st : Store) (id : Nat) : Option NetworkRec :=
  st.networks.find? (fun r => r.id == id)

/-- Store op `instance_get_by_uuid`. -/
def instance_get_by_uuid (st : Store) (uuid : String) : Option InstanceRec :=
  st.instances.find? (fun r => r.uuid == uuid)

/-- Store op `service_get_by_host_and_topic` (the topic is fixed to the
network topic, so only the host selects). -/
def service_get_by_host_and_topic (st : Store) (host : String) : Option ServiceRec :=
  st.services.find? (fun r => r.host == host)

/-- Pointwise update of the floating-ip table, leaving every other
table unchanged. -/
def mapFloating (st : Store) (f : FloatingIPRec → FloatingIPRec) : Store :=
  { st with floating_ips := st.floating_ips.map f }

/-- Store op `floating_ip_update(context, address, {'host': h})`. -/
def floating_ip_update (st : Store) (address : String) (h : Option String) : Store :=
  mapFloating st (fun r => if r.address == address then { r with host := h } else r)

/-- Store op `floating_ip_fixed_ip_associate`: modelled from the spec:
atomically set the binding floating→fixed tagging it with the calling
host, returning the joined fixed-ip record, or report `none` when the
address was already bound (treated as a benign race by the caller). -/
def floating_ip_fixed_ip_associate (st : Store) (floating_address fixed_address : String)
    (h : Option String) : Except Exc (Option FixedIPRec × Store) :=
  match floating_ip_get_by_address st floating_address with
  | none => .error (.FloatingIpNotFoundForAddress floating_address)
  | some rec =>
    match rec.fixed_ip_id with
    | some _ => .ok (none, st)
    | none =>
      match fixed_ip_get_by_address st fixed_address with
      | none => .error .FixedIpNotFound
      | some fx =>
        .ok (some fx, mapFloating st (fun r =>
          if r.address == floating_address then
            { r with fixed_ip_id := some fx.id, host := h } else r))

/-- Store op `floating_ip_disassociate`: modelled from the spec:
atomically clear the binding, returning the fixed-ip record that was
bound, or `none` when the address was already unbound. -/
def floating_ip_disassociate (st : Store) (address : String) :
    Except Exc (Option FixedIPRec × Store) :=
  match floating_ip_get_by_address st address with
  | none => .error (.FloatingIpNotFoundForAddress address)
  | some rec =>
    match rec.fixed_ip_id with
    | none => .ok (none, st)
    | some fid =>
      match fixed_ip_get st fid with
      | none => .error .FixedIpNotFound
      | some fx =>
        .ok (some fx, mapFloating st (fun r =>
          if r.address == address then { r with fixed_ip_id := none } else r))

/-- Store op `floating_ip_deallocate`: modelled from the spec: release
the address back to the unowned pool (clear its owning project). -/
def floating_ip_deallocate_store (st : Store) (address : String) : Store :=
  mapFloating st (fun r => if r.address == address then
    { r with project_id := none, auto_assigned := false } else r)

/-! ## Event counting -/

/-- Number of successful `QUOTAS.reserve` calls in a trace. -/
def countReserve (evs : List Event) : Nat :=
  evs.countP (fun e => match e with | .quotaReserve _ => true | _ => false)

/-- Number of `QUOTAS.commit` calls in a trace. -/
def countCommit (evs : List Event) : Nat :=
  evs.countP (fun e => match e with | .quotaCommit => true | _ => false)

/-- Number of `QUOTAS.rollback` calls in a trace. -/
def countRollback (evs : List Event) : Nat :=
  evs.countP (fun e => match e with | .quotaRollback => true | _ => false)

/-- Number of L3 driver `add_floating_ip` calls in a trace. -/
def countAdds (evs : List Event) : Nat :=
  evs.countP (fun e => match e with | .driverAdd _ _ _ => true | _ => false)

/-- Number of L3 driver `add_floating_ip` calls for one floating address. -/
def countAddsFor (a : String) (evs : List Event) : Nat :=
  evs.countP (fun e => match e with | .driverAdd b _ _ => b == a | _ => false)

/-- Number of L3 driver `remove_floating_ip` calls in a trace. -/
def countRemoves (evs : List Event) : Nat :=
  evs.countP (fun e => match e with | .driverRemove _ _ _ => true | _ => false)

/-- Number of L3 driver calls of any kind in a trace. -/
def countDriverCalls (evs : List Event) : Nat :=
  evs.countP (fun e => match e with
    | .driverAdd _ _ _ => true
    | .driverRemove _ _ _ => true
    | .driverCleanConntrack _ => true
    | _ => false)

/-! ## The manager's methods -/

/-- Method `_floating_ip_owned_by_project` (lines 190-205): admin
bypasses; otherwise raise `NotAuthorized` when the record's owning
project differs from the caller's (the code distinguishes the
unallocated and the foreign-project case only in the warning text; both
raise the same `NotAuthorized`). -/
def _floating_ip_owned_by_project (ctx : Ctx) (floating_ip : FloatingIPRec) :
    Except Exc Unit :=
  if ctx.is_admin then .ok ()
  else if floating_ip.project_id != ctx.project_id then .error .NotAuthorized
  else .ok ()

/-- Method `allocate_floating_ip` (lines 207-243).  The Quota Gateway
and the store's pool allocator are oracles: `reserveRaisesOverQuota`
says whether `QUOTAS.reserve(context, floating_ips=1)` raises
`OverQuota`, and `storeOutcome` is the outcome of
`db.floating_ip_allocate_address` (the allocated address, or the
exception it raises).  Returns the outcome and the event trace. -/
def allocate_floating_ip (ctx : Ctx) (project_id : String) (auto_assigned : Bool)
    (pool : Option String) (default_floating_pool : String)
    (reserveRaisesOverQuota : Bool) (storeOutcome : Except Exc String) :
    Except Exc String × List Event :=
  let effPool := match pool with
    | some p => if p == "" then default_floating_pool else p
    | none => default_floating_pool
  let use_quota := !auto_assigned
  if use_quota && reserveRaisesOverQuota then
    (.error .FloatingIpLimitExceeded, [])
  else
    let resEvs : List Event := if use_quota then [.quotaReserve 1] else []
    match storeOutcome with
    | .ok floating_ip =>
        (.ok floating_ip,
         resEvs ++ [.storeAllocate project_id effPool, .notify "allocate"] ++
           (if use_quota then [.quotaCommit] else []))
    | .error e =>
        (.error e, resEvs ++ (if use_quota then [.quotaRollback] else []))

/-- Method `deallocate_floating_ip` (lines 245-289).  Oracles:
`reserveOk` is whether `QUOTAS.reserve(context, floating_ips=-1)`
succeeds (any failure is caught and logged, best effort), and
`releaseRaises` is whether the store call `db.floating_ip_deallocate`
raises.  The DNS cleanup is an external driver call with no store
effect here. -/
def deallocate_floating_ip (ctx : Ctx) (st : Store) (address : String)
    (affect_auto_assigned : Bool) (reserveOk : Bool) (releaseRaises : Bool) : Res Unit :=
  match floating_ip_get_by_address st address with
  | none => ⟨.error (.FloatingIpNotFoundForAddress address), st, []⟩
  | some floating_ip =>
    if !affect_auto_assigned && floating_ip.auto_assigned then ⟨.ok (), st, []⟩
    else
      let use_quota := !floating_ip.auto_assigned
      match _floating_ip_owned_by_project ctx floating_ip with
      | .error e => ⟨.error e, st, []⟩
      | .ok _ =>
        match floating_ip.fixed_ip_id with
        | some _ => ⟨.error (.FloatingIpAssociated floating_ip.address), st, []⟩
        | none =>
          let evs1 : List Event := [.notify "deallocate"]
          let resPair : Bool × List Event :=
            if use_quota then
              if reserveOk then (true, [.quotaReserve (-1)])
              else (false, [.logWarn "reserve-failed"])
            else (false, [])
          if releaseRaises then
            ⟨.error .StoreFailure, st, evs1 ++ resPair.2⟩
          else
            ⟨.ok (), floating_ip_deallocate_store st address,
             evs1 ++ resPair.2 ++ [.storeDeallocate address] ++
               (if resPair.1 then [.quotaCommit] else [])⟩

/-- Method `_disassociate_floating_ip` (lines 441-471): the local
unbinding step (the per-address lock only serializes calls; one call's
body is sequential, so it needs no further modelling).  Note the code
overrides the passed interface with `CONF.public_interface` when the
latter is set, and only calls the driver when the resulting interface
is truthy. -/
def _disassociate_floating_ip (cfg : Cfg) (address : String)
    (iface : Option String) (st : Store) : Res Unit :=
  let eff : Option String :=
    if cfg.public_interface == "" then iface else some cfg.public_interface
  match floating_ip_disassociate st address with
  | .error e => ⟨.error e, st, []⟩
  | .ok (none, st') => ⟨.ok (), st', []⟩
  | .ok (some fixed, st') =>
    ⟨.ok (), st',
     [.storeUnbind address] ++
       (if truthyStr eff then [.driverRemove address fixed.address eff] else []) ++
       [.notify "disassociate"]⟩

/-- Method `disassociate_floating_ip` (lines 387-439): fetch, the
auto-assigned guard (which raises, unlike deallocate's silent skip),
the ownership check, the not-associated check, authoritative-host
resolution with the multi-host service-liveness fallback (suppressing
the interface when the instance's host service is missing or down),
and local-or-RPC dispatch.  A remote dispatch is modelled as the RPC
event followed by the remote manager running the local step with its
own `self.host`. -/
def disassociate_floating_ip (cfg : Cfg) (ctx : Ctx) (address : String)
    (affect_auto_assigned : Bool) (st : Store) : Res Unit :=
  match floating_ip_get_by_address st address with
  | none => ⟨.error (.FloatingIpNotFoundForAddress address), st, []⟩
  | some floating_ip =>
    if !affect_auto_assigned && floating_ip.auto_assigned then
      ⟨.error .CannotDisassociateAutoAssignedFloatingIP, st, []⟩
    else
      match _floating_ip_owned_by_project ctx floating_ip with
      | .error e => ⟨.error e, st, []⟩
      | .ok _ =>
        match floating_ip.fixed_ip_id with
        | none => ⟨.error (.FloatingIpNotAssociated floating_ip.address), st, []⟩
        | some fid =>
          match fixed_ip_get st fid with
          | none => ⟨.error .FixedIpNotFound, st, []⟩
          | some fixed_ip =>
            match network_get st fixed_ip.network_id with
            | none => ⟨.error .NetworkNotFound, st, []⟩
            | some network =>
              let hostIface : Except Exc (Option String × Option String) :=
                if network.multi_host then
                  match instance_get_by_uuid st fixed_ip.instance_uuid with
                  | none => .error .InstanceNotFound
                  | some inst =>
                    match service_get_by_host_and_topic st inst.host with
                    | some service =>
                      if service.alive then .ok (some inst.host, floating_ip.interface)
                      else .ok (cfg.selfHost, none)
                    | none => .ok (cfg.selfHost, none)
                else .ok (network.host, floating_ip.interface)
              match hostIface with
              | .error e => ⟨.error e, st, []⟩
              | .ok (host, iface) =>
                if host == cfg.selfHost then
                  _disassociate_floating_ip cfg address iface st
                else
                  let r := _disassociate_floating_ip { cfg with selfHost := host }
                    address iface st
                  ⟨r.out, r.store, .rpcDisassociate host :: r.events⟩

/-- Method `_associate_floating_ip` (lines 352-385): the local binding
step.  `addOutcome` is the L3 driver oracle: `none` means
`add_floating_ip` succeeds, `some msg` means it raises
`ProcessExecutionError(msg)`; in the latter case the just-made store
binding is undone, and the error becomes `NoFloatingIpInterface` when
the message contains `"Cannot find device"`, else is re-raised. -/
def _associate_floating_ip (cfg : Cfg) (floating_address fixed_address : String)
    (iface : Option String) (addOutcome : Option String) (st : Store) : Res Unit :=
  let eff : Option String :=
    if cfg.public_interface == "" then iface else some cfg.public_interface
  match floating_ip_fixed_ip_associate st floating_address fixed_address cfg.selfHost with
  | .error e => ⟨.error e, st, []⟩
  | .ok (none, st') => ⟨.ok (), st', []⟩
  | .ok (some _, st') =>
    match addOutcome with
    | none =>
      ⟨.ok (), st',
       [.storeBind floating_address fixed_address,
        .driverAdd floating_address fixed_address eff, .notify "associate"]⟩
    | some msg =>
      match floating_ip_disassociate st' floating_address with
      | .error e => ⟨.error e, st',
          [.storeBind floating_address fixed_address,
           .driverAdd floating_address fixed_address eff]⟩
      | .ok (_, st'') =>
        let err : Exc :=
          if containsSub msg "Cannot find device" then .NoFloatingIpInterface eff
          else .ProcessExecutionError msg
        ⟨.error err, st'',
         [.storeBind floating_address fixed_address,
          .driverAdd floating_address fixed_address eff, .storeUnbind floating_address]⟩

/-- Lines 326-350 of `associate_floating_ip`: after the
already-associated handling, look up the target fixed ip, resolve the
authoritative host (instance's host on a multi-host network, else the
network's host) and dispatch the local binding step locally or over
RPC, returning the previously associated instance uuid. -/
def associate_floating_ip_dispatch (cfg : Cfg) (floating_address fixed_address : String)
    (recInterface : Option String) (orig_instance_uuid : Option String)
    (addOutcome : Option String) (st : Store) (evs : List Event) : Res (Option String) :=
  match fixed_ip_get_by_address st fixed_address with
  | none => ⟨.error .FixedIpNotFound, st, evs⟩
  | some fixed_ip =>
    match network_get st fixed_ip.network_id with
    | none => ⟨.error .NetworkNotFound, st, evs⟩
    | some network =>
      let hostE : Except Exc (Option String) :=
        if network.multi_host then
          match instance_get_by_uuid st fixed_ip.instance_uuid with
          | none => .error .InstanceNotFound
          | some inst => .ok (some inst.host)
        else .ok network.host
      match hostE with
      | .error e => ⟨.error e, st, evs⟩
      | .ok host =>
        if host == cfg.selfHost then
          let r := _associate_floating_ip cfg floating_address fixed_address
            recInterface addOutcome st
          match r.out with
          | .error e => ⟨.error e, r.store, evs ++ r.events⟩
          | .ok _ => ⟨.ok orig_instance_uuid, r.store, evs ++ r.events⟩
        else
          let r := _associate_floating_ip { cfg with selfHost := host }
            floating_address fixed_address recInterface addOutcome st
          match r.out with
          | .error e => ⟨.error e, r.store, evs ++ [.rpcAssociate host] ++ r.events⟩
          | .ok _ => ⟨.ok orig_instance_uuid, r.store,
              evs ++ [.rpcAssociate host] ++ r.events⟩

/-- Method `associate_floating_ip` (lines 291-350): fetch, auto-assigned
silent skip, ownership check; when already bound to the same fixed
address return silently with no previous instance, when bound to a
different one first disassociate it (note: without passing
`affect_auto_assigned`, so that call uses its default `false`) and
remember the previously bound instance; then dispatch the binding. -/
def associate_floating_ip (cfg : Cfg) (ctx : Ctx) (floating_address fixed_address : String)
    (affect_auto_assigned : Bool) (addOutcome : Option String) (st : Store) :
    Res (Option String) :=
  match floating_ip_get_by_address st floating_address with
  | none => ⟨.error (.FloatingIpNotFoundForAddress floating_address), st, []⟩
  | some floating_ip =>
    if !affect_auto_assigned && floating_ip.auto_assigned then ⟨.ok none, st, []⟩
    else
      match _floating_ip_owned_by_project ctx floating_ip with
      | .error e => ⟨.error e, st, []⟩
      | .ok _ =>
        match floating_ip.fixed_ip_id with
        | some fid =>
          match fixed_ip_get st fid with
          | none => ⟨.error .FixedIpNotFound, st, []⟩
          | some fixed_ip =>
            if fixed_ip.address == fixed_address then ⟨.ok none, st, []⟩
            else
              let d := disassociate_floating_ip cfg ctx floating_address false st
              match d.out with
              | .error e => ⟨.error e, d.store, d.events⟩
              | .ok _ =>
                associate_floating_ip_dispatch cfg floating_address fixed_address
                  floating_ip.interface (some fixed_ip.instance_uuid) addOutcome
                  d.store d.events
        | none =>
          associate_floating_ip_dispatch cfg floating_address fixed_address
            floating_ip.interface none addOutcome st []

/-- Method `_is_stale_floating_ip_address` (lines 516-521): stale when
the ownership check fails or the record is unbound. -/
def _is_stale_floating_ip_address (ctx : Ctx) (floating_ip : FloatingIPRec) : Bool :=
  match _floating_ip_owned_by_project ctx floating_ip with
  | .error _ => true
  | .ok _ => !floating_ip.fixed_ip_id.isSome

/-- Staleness of an address in a store: missing records count as stale
only vacuously (the migration theorems assume each address resolves). -/
def staleAt (ctx : Ctx) (st : Store) (a : String) : Bool :=
  match floating_ip_get_by_address st a with
  | some rec => _is_stale_floating_ip_address ctx rec
  | none => true

/-- Well-formedness of one migrating address in a store: the address
resolves to a floating-ip record, and if that record is bound, the
bound fixed ip resolves too. -/
def migrate_addr_ok (st : Store) (a : String) : Bool :=
  match floating_ip_get_by_address st a with
  | none => false
  | some rec =>
    match rec.fixed_ip_id with
    | none => true
    | some fid => (fixed_ip_get st fid).isSome

/-- Loop body of `migrate_instance_start` (lines 534-561): per address,
re-fetch; skip stale addresses with a warning; else remove the L3 rule
and conntrack state and clear the recorded host. -/
def migrate_start_loop (cfg : Cfg) (ctx : Ctx) :
    List String → Store → Res Unit
  | [], st => ⟨.ok (), st, []⟩
  | a :: rest, st =>
    match floating_ip_get_by_address st a with
    | none => ⟨.error (.FloatingIpNotFoundForAddress a), st, []⟩
    | some floating_ip =>
      if _is_stale_floating_ip_address ctx floating_ip then
        let r := migrate_start_loop cfg ctx rest st
        ⟨r.out, r.store, .logWarn a :: r.events⟩
      else
        match floating_ip.fixed_ip_id with
        | none => ⟨.error .FixedIpNotFound, st, []⟩
        | some fid =>
          match fixed_ip_get st fid with
          | none => ⟨.error .FixedIpNotFound, st, []⟩
          | some fixed_ip =>
            let iface : Option String :=
              if cfg.public_interface == "" then floating_ip.interface
              else some cfg.public_interface
            let st' := floating_ip_update st floating_ip.address none
            let r := migrate_start_loop cfg ctx rest st'
            ⟨r.out, r.store,
             [.driverRemove floating_ip.address fixed_ip.address iface,
              .driverCleanConntrack fixed_ip.address,
              .storeUpdateHost floating_ip.address none] ++ r.events⟩

/-- Method `migrate_instance_start` (lines 523-561): no-op when no
addresses are given or when a truthy source equals dest. -/
def migrate_instance_start (cfg : Cfg) (ctx : Ctx) (_instance_uuid : String)
    (floating_addresses : List String) (source dest : Option String) (st : Store) :
    Res Unit :=
  if floating_addresses.isEmpty || (truthyStr source && source == dest) then
    ⟨.ok (), st, []⟩
  else migrate_start_loop cfg ctx floating_addresses st

/-- Loop body of `migrate_instance_finish` (lines 577-598): per address,
re-fetch; skip stale addresses with a warning; else record the
destination host and re-add the L3 rule. -/
def migrate_finish_loop (cfg : Cfg) (ctx : Ctx) (dest : Option String) :
    List String → Store → Res Unit
  | [], st => ⟨.ok (), st, []⟩
  | a :: rest, st =>
    match floating_ip_get_by_address st a with
    | none => ⟨.error (.FloatingIpNotFoundForAddress a), st, []⟩
    | some floating_ip =>
      if _is_stale_floating_ip_address ctx floating_ip then
        let r := migrate_finish_loop cfg ctx dest rest st
        ⟨r.out, r.store, .logWarn a :: r.events⟩
      else
        let st' := floating_ip_update st floating_ip.address dest
        match floating_ip.fixed_ip_id with
        | none => ⟨.error .FixedIpNotFound, st', [.storeUpdateHost floating_ip.address dest]⟩
        | some fid =>
          match fixed_ip_get st' fid with
          | none => ⟨.error .FixedIpNotFound, st', [.storeUpdateHost floating_ip.address dest]⟩
          | some fixed_ip =>
            let iface : Option String :=
              if cfg.public_interface == "" then floating_ip.interface
              else some cfg.public_interface
            let r := migrate_finish_loop cfg ctx dest rest st'
            ⟨r.out, r.store,
             [.storeUpdateHost floating_ip.address dest,
              .driverAdd floating_ip.address fixed_ip.address iface] ++ r.events⟩

/-- Lines 569-570 of `migrate_instance_finish`: when `host` is truthy
and `dest` is falsy, `dest` defaults to `host`. -/
def effective_dest (host dest : Option String) : Option String :=
  if truthyStr host && !truthyStr dest then host else dest

/-- Method `migrate_instance_finish` (lines 563-598): no-op when no
addresses are given or when a truthy source equals the effective dest. -/
def migrate_instance_finish (cfg : Cfg) (ctx : Ctx) (_instance_uuid : String)
    (floating_addresses : List String) (host source dest : Option String) (st : Store) :
    Res Unit :=
  let dest' := effective_dest host dest
  if floating_addresses.isEmpty || (truthyStr source && source == dest') then
    ⟨.ok (), st, []⟩
  else migrate_finish_loop cfg ctx dest' floating_addresses st

/-! ## Concrete fixtures used by witnesses and counterexamples -/

/-- Non-admin context of project `proj-a`. -/
def ctxA : Ctx := ⟨false, some "proj-a"⟩

/-- Non-admin context of project `proj-b`. -/
def ctxB : Ctx := ⟨false, some "proj-b"⟩

/-- Admin context. -/
def ctxAdmin : Ctx := ⟨true, none⟩

/-- Manager on `host-a` with `public_interface` unset. -/
def cfgMain : Cfg := ⟨"", some "host-a"⟩

/-- Manager on `host-a` with `public_interface` set to `eth0`. -/
def cfgPub : Cfg := ⟨"eth0", some "host-a"⟩

/-- Unbound floating ip owned by `proj-a`, not auto-assigned. -/
def fipQuota : FloatingIPRec := ⟨"192.0.2.10", "nova", some "proj-a", none, false, none, none⟩

/-- Store holding only `fipQuota`. -/
def stQuota : Store := ⟨[fipQuota], [], [], [], []⟩

/-- Auto-assigned floating ip with no owning project. -/
def fipAuto : FloatingIPRec := ⟨"192.0.2.20", "nova", none, none, true, none, none⟩

/-- Store holding only `fipAuto`. -/
def stAuto : Store := ⟨[fipAuto], [], [], [], []⟩

/-- Fixed ip 1 of instance `inst-1` on network 7. -/
def fxOne : FixedIPRec := ⟨1, "10.0.0.5", "inst-1", 7⟩

/-- Fixed ip 2 of instance `inst-2` on network 7. -/
def fxTwo : FixedIPRec := ⟨2, "10.0.0.6", "inst-2", 7⟩

/-- Single-host network 7, hosted on `host-a`. -/
def netSingle : NetworkRec := ⟨7, false, some "host-a"⟩

/-- Multi-host network 7. -/
def netMulti : NetworkRec := ⟨7, true, none⟩

/-- Floating ip of `proj-a` bound to fixed ip 1. -/
def fipBound : FloatingIPRec := ⟨"192.0.2.30", "nova", some "proj-a", some 1, false, some "host-a", none⟩

/-- Store for the associate scenarios: `fipBound` on the single-host
network 7 with both fixed ips present. -/
def stBound : Store :=
  ⟨[fipBound], [fxOne, fxTwo], [netSingle], [⟨"inst-1", "host-a"⟩, ⟨"inst-2", "host-a"⟩], []⟩

/-- Unbound floating ip of `proj-a` used by the local-binding scenarios. -/
def fipFree : FloatingIPRec := ⟨"192.0.2.40", "nova", some "proj-a", none, false, none, none⟩

/-- Store for the local-binding scenarios: `fipFree` plus fixed ip 1. -/
def stFree : Store := ⟨[fipFree], [fxOne], [netSingle], [⟨"inst-1", "host-a"⟩], []⟩

/-- Auto-assigned floating ip of `proj-a` bound to fixed ip 1. -/
def fipAutoBound : FloatingIPRec := ⟨"192.0.2.50", "nova", some "proj-a", some 1, true, some "host-a", none⟩

/-- Store for the auto-assigned re-association scenario. -/
def stAutoBound : Store :=
  ⟨[fipAutoBound], [fxOne, fxTwo], [netSingle], [⟨"inst-1", "host-a"⟩, ⟨"inst-2", "host-a"⟩], []⟩

/-- Floating ip of `proj-a` bound to fixed ip 1 on the multi-host
network, recorded on `host-a`. -/
def fipMulti : FloatingIPRec := ⟨"198.51.100.7", "nova", some "proj-a", some 1, false, some "host-a", none⟩

/-- Store for the dead-service disassociation scenario: multi-host
network, instance on `host-b` whose network service is down. -/
def stDead : Store :=
  ⟨[fipMulti], [fxOne], [netMulti], [⟨"inst-1", "host-b"⟩], [⟨"host-b", false⟩]⟩

/-- The stale floating ip for the migration scenario: owned by another
project, hence skipped. -/
def fipStale : FloatingIPRec := ⟨"203.0.113.9", "nova", some "proj-b", some 1, false, some "host-a", none⟩

/-- The live floating ip for the migration scenario. -/
def fipLive : FloatingIPRec := ⟨"203.0.113.5", "nova", some "proj-a", some 2, false, some "host-a", some "eth1"⟩

/-- Store for the migration scenario: one live and one stale address. -/
def stMigr : Store :=
  ⟨[fipLive, fipStale], [fxOne, fxTwo], [netSingle], [⟨"inst-2", "host-a"⟩], []⟩

end Nova

namespace Nova

/-! ## Helper lemmas about the store operations -/

theorem flookup_mapFloating (st : Store) (f : FloatingIPRec → FloatingIPRec)
    (hf : ∀ r, (f r).address = r.address) (a : String) :
    floating_ip_get_by_address (mapFloating st f) a =
      (floating_ip_get_by_address st a).map f := by
  show (st.floating_ips.map f).find? (fun r => r.address == a) =
    (st.floating_ips.find? (fun r => r.address == a)).map f
  induction st.floating_ips with
  | nil => rfl
  | cons r rest ih =>
    simp only [List.map_cons, List.find?]
    rw [hf r]
    cases hra : (r.address == a) with
    | true => simp
    | false => simpa using ih

theorem flookup_address {st : Store} {a : String} {rec : FloatingIPRec}
    (h : floating_ip_get_by_address st a = some rec) : rec.address = a := by
  have h' : st.floating_ips.find? (fun r => r.address == a) = some rec := h
  have := List.find?_some h'
  exact eq_of_beq this

theorem fixed_ip_get_mapFloating (st : Store) (f : FloatingIPRec → FloatingIPRec) (i : Nat) :
    fixed_ip_get (mapFloating st f) i = fixed_ip_get st i := rfl

theorem mapFloating_fixed_ips (st : Store) (f : FloatingIPRec → FloatingIPRec) :
    (mapFloating st f).fixed_ips = st.fixed_ips := rfl

theorem is_stale_host_update (ctx : Ctx) (rec : FloatingIPRec) (h : Option String) :
    _is_stale_floating_ip_address ctx { rec with host := h } =
      _is_stale_floating_ip_address ctx rec := rfl

theorem flookup_update (st : Store) (b : String) (h : Option String) (a : String) :
    floating_ip_get_by_address (floating_ip_update st b h) a =
      (floating_ip_get_by_address st a).map
        (fun r => if r.address == b then { r with host := h } else r) := by
  apply flookup_mapFloating
  intro r
  by_cases hr : (r.address == b) = true <;> simp [hr]

theorem staleAt_update (ctx : Ctx) (st : Store) (b : String) (h : Option String) (a : String) :
    staleAt ctx (floating_ip_update st b h) a = staleAt ctx st a := by
  unfold staleAt
  rw [flookup_update]
  cases hfl : floating_ip_get_by_address st a with
  | none => rfl
  | some rec =>
    by_cases hr : rec.address = b <;>
      simp [hr, _is_stale_floating_ip_address, _floating_ip_owned_by_project]

theorem migrate_addr_ok_update (st : Store) (b : String) (h : Option String) (a : String) :
    migrate_addr_ok (floating_ip_update st b h) a = migrate_addr_ok st a := by
  unfold migrate_addr_ok
  rw [flookup_update]
  cases hfl : floating_ip_get_by_address st a with
  | none => rfl
  | some rec =>
    by_cases hr : rec.address = b <;>
      cases hfid : rec.fixed_ip_id <;>
        simp [hr, hfid, fixed_ip_get, floating_ip_update, mapFloating]

theorem not_stale_fixed_isSome {ctx : Ctx} {rec : FloatingIPRec}
    (h : _is_stale_floating_ip_address ctx rec = false) :
    rec.fixed_ip_id.isSome = true := by
  unfold _is_stale_floating_ip_address at h
  cases how : _floating_ip_owned_by_project ctx rec with
  | error e => rw [how] at h; cases h
  | ok u => rw [how] at h; simpa using h

theorem fixed_ip_get_update (st : Store) (b : String) (h : Option String) (i : Nat) :
    fixed_ip_get (floating_ip_update st b h) i = fixed_ip_get st i := rfl

theorem fixed_ip_get_eq_of_fixed_ips {st1 st2 : Store} (h : st1.fixed_ips = st2.fixed_ips)
    (i : Nat) : fixed_ip_get st1 i = fixed_ip_get st2 i := by
  unfold fixed_ip_get
  rw [h]

theorem migrate_start_loop_cons_stale (cfg : Cfg) (ctx : Ctx) (a : String)
    (rest : List String) (st : Store) (rec : FloatingIPRec)
    (hfl : floating_ip_get_by_address st a = some rec)
    (hstale : _is_stale_floating_ip_address ctx rec = true) :
    migrate_start_loop cfg ctx (a :: rest) st =
      ⟨(migrate_start_loop cfg ctx rest st).out,
       (migrate_start_loop cfg ctx rest st).store,
       .logWarn a :: (migrate_start_loop cfg ctx rest st).events⟩ := by
  simp only [migrate_start_loop, hfl, hstale, if_true]

theorem migrate_start_loop_cons_live (cfg : Cfg) (ctx : Ctx) (a : String)
    (rest : List String) (st : Store) (rec : FloatingIPRec) (fid : Nat) (fx : FixedIPRec)
    (hfl : floating_ip_get_by_address st a = some rec)
    (hstale : _is_stale_floating_ip_address ctx rec = false)
    (hfid : rec.fixed_ip_id = some fid)
    (hfx : fixed_ip_get st fid = some fx) :
    migrate_start_loop cfg ctx (a :: rest) st =
      ⟨(migrate_start_loop cfg ctx rest (floating_ip_update st rec.address none)).out,
       (migrate_start_loop cfg ctx rest (floating_ip_update st rec.address none)).store,
       [.driverRemove rec.address fx.address
          (if cfg.public_interface == "" then rec.interface else some cfg.public_interface),
        .driverCleanConntrack fx.address,
        .storeUpdateHost rec.address none] ++
         (migrate_start_loop cfg ctx rest (floating_ip_update st rec.address none)).events⟩ := by
  simp only [migrate_start_loop, hfl, hstale, hfid, hfx, Bool.false_eq_true, if_false]

theorem migrate_finish_loop_cons_stale (cfg : Cfg) (ctx : Ctx) (dest : Option String)
    (a : String) (rest : List String) (st : Store) (rec : FloatingIPRec)
    (hfl : floating_ip_get_by_address st a = some rec)
    (hstale : _is_stale_floating_ip_address ctx rec = true) :
    migrate_finish_loop cfg ctx dest (a :: rest) st =
      ⟨(migrate_finish_loop cfg ctx dest rest st).out,
       (migrate_finish_loop cfg ctx dest rest st).store,
       .logWarn a :: (migrate_finish_loop cfg ctx dest rest st).events⟩ := by
  simp only [migrate_finish_loop, hfl, hstale, if_true]

theorem migrate_finish_loop_cons_live (cfg : Cfg) (ctx : Ctx) (dest : Option String)
    (a : String) (rest : List String) (st : Store) (rec : FloatingIPRec) (fid : Nat)
    (fx : FixedIPRec)
    (hfl : floating_ip_get_by_address st a = some rec)
    (hstale : _is_stale_floating_ip_address ctx rec = false)
    (hfid : rec.fixed_ip_id = some fid)
    (hfx : fixed_ip_get st fid = some fx) :
    migrate_finish_loop cfg ctx dest (a :: rest) st =
      ⟨(migrate_finish_loop cfg ctx dest rest (floating_ip_update st rec.address dest)).out,
       (migrate_finish_loop cfg ctx dest rest (floating_ip_update st rec.address dest)).store,
       [.storeUpdateHost rec.address dest,
        .driverAdd rec.address fx.address
          (if cfg.public_interface == "" then rec.interface else some cfg.public_interface)] ++
         (migrate_finish_loop cfg ctx dest rest
           (floating_ip_update st rec.address dest)).events⟩ := by
  simp only [migrate_finish_loop, hfl, hstale, hfid, fixed_ip_get_update, hfx,
    Bool.false_eq_true, if_false]

theorem staleAt_eq_of_lookup {ctx : Ctx} {st : Store} {a : String} {rec : FloatingIPRec}
    (hfl : floating_ip_get_by_address st a = some rec) :
    staleAt ctx st a = _is_stale_floating_ip_address ctx rec := by
  unfold staleAt
  rw [hfl]

theorem migrate_start_loop_spec (cfg : Cfg) (ctx : Ctx) (addrs : List String) (st : Store)
    (hok : ∀ a ∈ addrs, migrate_addr_ok st a = true) :
    (migrate_start_loop cfg ctx addrs st).out = .ok () ∧
    (∀ b, floating_ip_get_by_address (migrate_start_loop cfg ctx addrs st).store b =
       (if b ∈ addrs ∧ staleAt ctx st b = false
        then (floating_ip_get_by_address st b).map (fun r => { r with host := none })
        else floating_ip_get_by_address st b)) ∧
    (migrate_start_loop cfg ctx addrs st).store.fixed_ips = st.fixed_ips ∧
    countAdds (migrate_start_loop cfg ctx addrs st).events = 0 ∧
    (∀ a ∈ addrs, staleAt ctx st a = true →
       Event.logWarn a ∈ (migrate_start_loop cfg ctx addrs st).events) := by
  induction addrs generalizing st with
  | nil =>
    refine ⟨rfl, ?_, rfl, rfl, ?_⟩
    · intro b
      simp [migrate_start_loop]
    · intro a ha
      cases ha
  | cons a rest ih =>
    have hok_a : migrate_addr_ok st a = true := hok a (List.mem_cons_self a rest)
    cases hfl : floating_ip_get_by_address st a with
    | none =>
      exfalso
      simp only [migrate_addr_ok, hfl] at hok_a
      exact Bool.noConfusion hok_a
    | some rec =>
      have haddr : rec.address = a := flookup_address hfl
      cases hstale : _is_stale_floating_ip_address ctx rec with
      | true =>
        have hsa : staleAt ctx st a = true := by rw [staleAt_eq_of_lookup hfl, hstale]
        obtain ⟨ih1, ih2, ih3, ih4, ih5⟩ :=
          ih st (fun x hx => hok x (List.mem_cons_of_mem a hx))
        rw [migrate_start_loop_cons_stale cfg ctx a rest st rec hfl hstale]
        refine ⟨ih1, ?_, ih3, ?_, ?_⟩
        · intro b
          rw [ih2 b]
          by_cases hb : b = a
          · subst hb
            simp [hsa]
          · simp [hb]
        · simpa [countAdds, List.countP_cons] using ih4
        · intro x hx hsx
          rcases List.mem_cons.mp hx with rfl | hx'
          · exact List.mem_cons_self _ _
          · exact List.mem_cons_of_mem _ (ih5 x hx' hsx)
      | false =>
        have hsa : staleAt ctx st a = false := by rw [staleAt_eq_of_lookup hfl, hstale]
        have hsome := not_stale_fixed_isSome hstale
        cases hfid : rec.fixed_ip_id with
        | none => rw [hfid] at hsome; cases hsome
        | some fid =>
          have hfxs : (fixed_ip_get st fid).isSome = true := by
            simp only [migrate_addr_ok, hfl, hfid] at hok_a
            exact hok_a
          cases hfx : fixed_ip_get st fid with
          | none => rw [hfx] at hfxs; cases hfxs
          | some fx =>
            have hok' : ∀ x ∈ rest,
                migrate_addr_ok (floating_ip_update st rec.address none) x = true := by
              intro x hx
              rw [migrate_addr_ok_update]
              exact hok x (List.mem_cons_of_mem a hx)
            obtain ⟨ih1, ih2, ih3, ih4, ih5⟩ :=
              ih (floating_ip_update st rec.address none) hok'
            rw [migrate_start_loop_cons_live cfg ctx a rest st rec fid fx hfl hstale hfid hfx]
            refine ⟨ih1, ?_, ?_, ?_, ?_⟩
            · intro b
              rw [ih2 b, staleAt_update, flookup_update]
              by_cases hb : b = a
              · subst hb
                rw [hfl]
                have hmem : b ∈ b :: rest := List.mem_cons_self b rest
                by_cases hbr : b ∈ rest
                · simp [hbr, hmem, hsa, haddr]
                · simp [hbr, hmem, hsa, haddr]
              · have hne2 : ¬ rec.address = b := fun hh => hb (by rw [← haddr, hh])
                have hmap : (floating_ip_get_by_address st b).map
                    (fun r => if r.address == rec.address then { r with host := none }
                      else r) = floating_ip_get_by_address st b := by
                  cases hflb : floating_ip_get_by_address st b with
                  | none => rfl
                  | some rb =>
                    have hrb : rb.address = b := flookup_address hflb
                    have hcond : ¬ rb.address = rec.address := by
                      rw [hrb, haddr]
                      exact hb
                    simp [hcond]
                rw [hmap]
                simp [List.mem_cons, hb]
            · rw [ih3]
              rfl
            · simpa [countAdds, List.countP_append, List.countP_cons] using ih4
            · intro x hx hsx
              rcases List.mem_cons.mp hx with rfl | hx'
              · rw [hsa] at hsx; cases hsx
              · have hsx' : staleAt ctx (floating_ip_update st rec.address none) x = true := by
                  rw [staleAt_update]; exact hsx
                exact List.mem_append_right _ (ih5 x hx' hsx')

theorem migrate_finish_loop_spec (cfg : Cfg) (ctx : Ctx) (dest : Option String)
    (addrs : List String) (st : Store)
    (hok : ∀ a ∈ addrs, migrate_addr_ok st a = true) :
    (migrate_finish_loop cfg ctx dest addrs st).out = .ok () ∧
    (∀ b, floating_ip_get_by_address (migrate_finish_loop cfg ctx dest addrs st).store b =
       (if b ∈ addrs ∧ staleAt ctx st b = false
        then (floating_ip_get_by_address st b).map (fun r => { r with host := dest })
        else floating_ip_get_by_address st b)) ∧
    countAdds (migrate_finish_loop cfg ctx dest addrs st).events =
      (addrs.filter (fun x => !staleAt ctx st x)).length ∧
    (∀ b, countAddsFor b (migrate_finish_loop cfg ctx dest addrs st).events =
      (addrs.filter (fun x => !staleAt ctx st x)).count b) ∧
    (∀ a ∈ addrs, staleAt ctx st a = true →
       Event.logWarn a ∈ (migrate_finish_loop cfg ctx dest addrs st).events) := by
  induction addrs generalizing st with
  | nil =>
    refine ⟨rfl, ?_, rfl, ?_, ?_⟩
    · intro b
      simp [migrate_finish_loop]
    · intro b
      rfl
    · intro a ha
      cases ha
  | cons a rest ih =>
    have hok_a : migrate_addr_ok st a = true := hok a (List.mem_cons_self a rest)
    cases hfl : floating_ip_get_by_address st a with
    | none =>
      exfalso
      simp only [migrate_addr_ok, hfl] at hok_a
      exact Bool.noConfusion hok_a
    | some rec =>
      have haddr : rec.address = a := flookup_address hfl
      cases hstale : _is_stale_floating_ip_address ctx rec with
      | true =>
        have hsa : staleAt ctx st a = true := by rw [staleAt_eq_of_lookup hfl, hstale]
        obtain ⟨ih1, ih2, ih3, ih4, ih5⟩ :=
          ih st (fun x hx => hok x (List.mem_cons_of_mem a hx))
        rw [migrate_finish_loop_cons_stale cfg ctx dest a rest st rec hfl hstale]
        refine ⟨ih1, ?_, ?_, ?_, ?_⟩
        · intro b
          rw [ih2 b]
          by_cases hb : b = a
          · subst hb
            simp [hsa]
          · simp [hb]
        · simpa [countAdds, List.countP_cons, List.filter_cons, hsa] using ih3
        · intro b
          simpa [countAddsFor, List.countP_cons, List.filter_cons, hsa] using ih4 b
        · intro x hx hsx
          rcases List.mem_cons.mp hx with rfl | hx'
          · exact List.mem_cons_self _ _
          · exact List.mem_cons_of_mem _ (ih5 x hx' hsx)
      | false =>
        have hsa : staleAt ctx st a = false := by rw [staleAt_eq_of_lookup hfl, hstale]
        have hsome := not_stale_fixed_isSome hstale
        cases hfid : rec.fixed_ip_id with
        | none => rw [hfid] at hsome; cases hsome
        | some fid =>
          have hfxs : (fixed_ip_get st fid).isSome = true := by
            simp only [migrate_addr_ok, hfl, hfid] at hok_a
            exact hok_a
          cases hfx : fixed_ip_get st fid with
          | none => rw [hfx] at hfxs; cases hfxs
          | some fx =>
            have hok' : ∀ x ∈ rest,
                migrate_addr_ok (floating_ip_update st rec.address dest) x = true := by
              intro x hx
              rw [migrate_addr_ok_update]
              exact hok x (List.mem_cons_of_mem a hx)
            obtain ⟨ih1, ih2, ih3, ih4, ih5⟩ :=
              ih (floating_ip_update st rec.address dest) hok'
            rw [migrate_finish_loop_cons_live cfg ctx dest a rest st rec fid fx hfl hstale
              hfid hfx]
            have hfiltereq : rest.filter
                  (fun x => !staleAt ctx (floating_ip_update st rec.address dest) x) =
                rest.filter (fun x => !staleAt ctx st x) := by
              apply List.filter_congr
              intro x _
              rw [staleAt_update]
            refine ⟨ih1, ?_, ?_, ?_, ?_⟩
            · intro b
              rw [ih2 b, staleAt_update, flookup_update]
              by_cases hb : b = a
              · subst hb
                rw [hfl]
                have hmem : b ∈ b :: rest := List.mem_cons_self b rest
                by_cases hbr : b ∈ rest
                · simp [hbr, hmem, hsa, haddr]
                · simp [hbr, hmem, hsa, haddr]
              · have hmap : (floating_ip_get_by_address st b).map
                    (fun r => if r.address == rec.address then { r with host := dest }
                      else r) = floating_ip_get_by_address st b := by
                  cases hflb : floating_ip_get_by_address st b with
                  | none => rfl
                  | some rb =>
                    have hrb : rb.address = b := flookup_address hflb
                    have hcond : ¬ rb.address = rec.address := by
                      rw [hrb, haddr]
                      exact hb
                    simp [hcond]
                rw [hmap]
                simp [List.mem_cons, hb]
            · have h3 := ih3
              rw [hfiltereq] at h3
              simp [countAdds, List.countP_append, List.countP_cons, List.filter_cons,
                hsa] at h3 ⊢
              omega
            · intro b
              have h4 := ih4 b
              rw [hfiltereq] at h4
              by_cases hab : a = b
              · subst hab
                simp [countAddsFor, List.countP_append, List.countP_cons, List.filter_cons,
                  hsa, List.count_cons, haddr] at h4 ⊢
                omega
              · simp [countAddsFor, List.countP_append, List.countP_cons, List.filter_cons,
                  hsa, List.count_cons, haddr, hab] at h4 ⊢
                omega
            · intro x hx hsx
              rcases List.mem_cons.mp hx with rfl | hx'
              · rw [hsa] at hsx
                cases hsx
              · have hsx' : staleAt ctx (floating_ip_update st rec.address dest) x = true := by
                  rw [staleAt_update]
                  exact hsx
                exact List.mem_append_right _ (ih5 x hx' hsx')

/-- Claim C2: when the quota reservation step of a quota-using
allocation raises `OverQuota`, `allocate_floating_ip` raises
`FloatingIpLimitExceeded` and its trace is empty — in particular no
store mutation happens, whatever the store's pool allocator would have
returned. -/
theorem claim_overquota_no_allocation (ctx : Ctx) (project_id : String)
    (pool : Option String) (dflt : String) (storeOutcome : Except Exc String) :
    allocate_floating_ip ctx project_id false pool dflt true storeOutcome =
      (.error .FloatingIpLimitExceeded, []) := rfl

/-- Claim C1 (counterexample): in `deallocate_floating_ip`, when the
store release `db.floating_ip_deallocate` raises after a successful
`-1` reservation, the reservation is neither committed nor rolled back
— the trace holds one reserve and zero commits/rollbacks, refuting the
claim that every successful reservation is followed by exactly one
commit or rollback on every path. -/
theorem claim_quota_pairing_cex :
    countReserve (deallocate_floating_ip ctxA stQuota "192.0.2.10" false true true).events = 1 ∧
    countCommit (deallocate_floating_ip ctxA stQuota "192.0.2.10" false true true).events = 0 ∧
    countRollback (deallocate_floating_ip ctxA stQuota "192.0.2.10" false true true).events = 0 ∧
    (deallocate_floating_ip ctxA stQuota "192.0.2.10" false true true).out =
      .error .StoreFailure := by
  decide

/-- Claim C1 (amended): in `allocate_floating_ip` every successful
reservation is followed by exactly one commit or exactly one rollback
on every execution path, including when the downstream store call
raises; in `deallocate_floating_ip` the same pairing holds on every
path on which the store release returns normally (when the release
raises, the reservation is left pending: see the counterexample). -/
theorem claim_quota_pairing :
    (∀ (ctx : Ctx) (pid : String) (auto : Bool) (pool : Option String) (dflt : String)
       (rr : Bool) (so : Except Exc String),
       countCommit (allocate_floating_ip ctx pid auto pool dflt rr so).2 +
         countRollback (allocate_floating_ip ctx pid auto pool dflt rr so).2 =
         countReserve (allocate_floating_ip ctx pid auto pool dflt rr so).2) ∧
    (∀ (ctx : Ctx) (st : Store) (address : String) (affect rok : Bool),
       countCommit (deallocate_floating_ip ctx st address affect rok false).events +
         countRollback (deallocate_floating_ip ctx st address affect rok false).events =
         countReserve (deallocate_floating_ip ctx st address affect rok false).events) := by
  constructor
  · intro ctx pid auto pool dflt rr so
    unfold allocate_floating_ip
    cases auto <;> cases rr <;> cases so <;>
      simp [countCommit, countRollback, countReserve, List.countP_append, List.countP_cons]
  · intro ctx st address affect rok
    unfold deallocate_floating_ip
    cases hfl : floating_ip_get_by_address st address with
    | none => simp [countCommit, countRollback, countReserve]
    | some rec =>
      cases affect <;>
        cases how : _floating_ip_owned_by_project ctx rec <;>
          cases hfid : rec.fixed_ip_id <;>
            cases hua : rec.auto_assigned <;>
              cases rok <;>
                simp [how, hfid, hua, countCommit, countRollback, countReserve,
                  List.countP_append, List.countP_cons]

/-- Claim C5 (counterexample): on a record that is auto-assigned and
has a null owning project, a non-admin foreign caller's deallocate with
`affectAutoAssigned=false` is a silent no-op rather than a
`NotAuthorized` failure, because the auto-assigned skip rule runs
before the ownership check. -/
theorem claim_ownership_rejects_cex :
    deallocate_floating_ip ctxB stAuto "192.0.2.20" false true false =
      ⟨.ok (), stAuto, []⟩ := by
  decide

/-- Claim C5 (amended): for every non-admin context, the ownership
check fails with `NotAuthorized` whenever the record's owning project
differs from the caller's project — in particular whenever the record's
owner is null and the caller has a project (when both are null the
check passes); consequently deallocate, associate and disassociate on
such a record fail with `NotAuthorized` provided the auto-assigned skip
rule does not fire first (record not auto-assigned, or
`affectAutoAssigned` true). -/
theorem claim_ownership_rejects (cfg : Cfg) (ctx : Ctx) (st : Store)
    (address fixed_address : String) (rec : FloatingIPRec) (affect rok rr : Bool)
    (addOutcome : Option String)
    (hadmin : ctx.is_admin = false)
    (hproj : rec.project_id ≠ ctx.project_id)
    (hrec : floating_ip_get_by_address st address = some rec)
    (hskip : (!affect && rec.auto_assigned) = false) :
    _floating_ip_owned_by_project ctx rec = .error .NotAuthorized ∧
    (deallocate_floating_ip ctx st address affect rok rr).out = .error .NotAuthorized ∧
    (associate_floating_ip cfg ctx address fixed_address affect addOutcome st).out =
      .error .NotAuthorized ∧
    (disassociate_floating_ip cfg ctx address affect st).out = .error .NotAuthorized := by
  have hown : _floating_ip_owned_by_project ctx rec = .error .NotAuthorized := by
    unfold _floating_ip_owned_by_project
    simp [hadmin, hproj]
  refine ⟨hown, ?_, ?_, ?_⟩
  · unfold deallocate_floating_ip
    rw [hrec]
    simp [hskip, hown]
  · unfold associate_floating_ip
    rw [hrec]
    simp [hskip, hown]
  · unfold disassociate_floating_ip
    rw [hrec]
    simp [hskip, hown]

/-- Claim C5 (witness): concrete instance of the amended theorem — a
`proj-b` caller is rejected on a `proj-a` record by the check and by
all three operations. -/
theorem claim_ownership_rejects_witness :
    _floating_ip_owned_by_project ctxB fipQuota = .error .NotAuthorized ∧
    (deallocate_floating_ip ctxB stQuota "192.0.2.10" false true false).out =
      .error .NotAuthorized ∧
    (associate_floating_ip cfgMain ctxB "192.0.2.10" "10.0.0.5" false none stQuota).out =
      .error .NotAuthorized ∧
    (disassociate_floating_ip cfgMain ctxB "192.0.2.10" false stQuota).out =
      .error .NotAuthorized :=
  claim_ownership_rejects cfgMain ctxB stQuota "192.0.2.10" "10.0.0.5" fipQuota
    false true false none (by decide) (by decide) (by decide) (by decide)

/-- Claim C7 (counterexample): disassociate on an auto-assigned
floating ip with `affectAutoAssigned=false` raises
`CannotDisassociateAutoAssignedFloatingIP` — it is not the silent
no-op the claim states. -/
theorem claim_disassociate_auto_guard_cex :
    (disassociate_floating_ip cfgMain ctxA "192.0.2.20" false stAuto).out =
      .error .CannotDisassociateAutoAssignedFloatingIP := by
  decide

/-- Claim C7 (amended): disassociate's auto-assigned rule differs from
the silent skip of deallocate and associate: for every floating ip
whose `auto_assigned` flag is set, disassociate with
`affectAutoAssigned=false` raises
`CannotDisassociateAutoAssignedFloatingIP`, mutating no state and
issuing no driver call. -/
theorem claim_disassociate_auto_guard (cfg : Cfg) (ctx : Ctx) (st : Store)
    (address : String) (rec : FloatingIPRec)
    (hrec : floating_ip_get_by_address st address = some rec)
    (hauto : rec.auto_assigned = true) :
    disassociate_floating_ip cfg ctx address false st =
      ⟨.error .CannotDisassociateAutoAssignedFloatingIP, st, []⟩ := by
  unfold disassociate_floating_ip
  rw [hrec]
  simp [hauto]

/-- Claim C7 (witness): concrete instance of the amended theorem. -/
theorem claim_disassociate_auto_guard_witness :
    disassociate_floating_ip cfgMain ctxA "192.0.2.50" false stAutoBound =
      ⟨.error .CannotDisassociateAutoAssignedFloatingIP, stAutoBound, []⟩ :=
  claim_disassociate_auto_guard cfgMain ctxA stAutoBound "192.0.2.50" fipAutoBound
    (by decide) (by decide)

/-- Claim C10: when associate is called on an auto-assigned floating ip
already bound to a different fixed address, even with
`affectAutoAssigned=true`, the internal re-disassociation is invoked
without that override, so the call raises
`CannotDisassociateAutoAssignedFloatingIP` and nothing is rebound (the
store is unchanged and no driver call is made). -/
theorem claim_associate_auto_rebind_raises (cfg : Cfg) (ctx : Ctx)
    (floating_address fixed_address : String) (addOutcome : Option String)
    (st : Store) (rec : FloatingIPRec) (fid : Nat) (fx : FixedIPRec)
    (hrec : floating_ip_get_by_address st floating_address = some rec)
    (hauto : rec.auto_assigned = true)
    (hown : _floating_ip_owned_by_project ctx rec = .ok ())
    (hfid : rec.fixed_ip_id = some fid)
    (hfx : fixed_ip_get st fid = some fx)
    (hdiff : fx.address ≠ fixed_address) :
    associate_floating_ip cfg ctx floating_address fixed_address true addOutcome st =
      ⟨.error .CannotDisassociateAutoAssignedFloatingIP, st, []⟩ := by
  have hdis : disassociate_floating_ip cfg ctx floating_address false st =
      ⟨.error .CannotDisassociateAutoAssignedFloatingIP, st, []⟩ := by
    unfold disassociate_floating_ip
    rw [hrec]
    simp [hauto]
  unfold associate_floating_ip
  rw [hrec]
  simp [hown, hfid, hfx, hdiff, hdis]

/-- Claim C10 (witness): concrete instance — rebinding the
auto-assigned `192.0.2.50` from fixed ip `10.0.0.5` to `10.0.0.6` with
the override raises. -/
theorem claim_associate_auto_rebind_raises_witness :
    associate_floating_ip cfgMain ctxA "192.0.2.50" "10.0.0.6" true none stAutoBound =
      ⟨.error .CannotDisassociateAutoAssignedFloatingIP, stAutoBound, []⟩ :=
  claim_associate_auto_rebind_raises cfgMain ctxA "192.0.2.50" "10.0.0.6" none
    stAutoBound fipAutoBound 1 fxOne (by decide) (by decide) (by decide) (by decide)
    (by decide) (by decide)

/-- Claim C4: associate is idempotent — when the floating ip is already
bound to the fixed ip whose address is the requested one, a second
associate (authorized, not skipped) returns no previous-instance id,
leaves the store unchanged and makes no driver or store call. -/
theorem claim_associate_idempotent (cfg : Cfg) (ctx : Ctx)
    (floating_address fixed_address : String) (affect : Bool) (addOutcome : Option String)
    (st : Store) (rec : FloatingIPRec) (fid : Nat) (fx : FixedIPRec)
    (hrec : floating_ip_get_by_address st floating_address = some rec)
    (hskip : (!affect && rec.auto_assigned) = false)
    (hown : _floating_ip_owned_by_project ctx rec = .ok ())
    (hfid : rec.fixed_ip_id = some fid)
    (hfx : fixed_ip_get st fid = some fx)
    (hsame : fx.address = fixed_address) :
    associate_floating_ip cfg ctx floating_address fixed_address affect addOutcome st =
      ⟨.ok none, st, []⟩ := by
  unfold associate_floating_ip
  rw [hrec]
  simp [hskip, hown, hfid, hfx, hsame]

/-- Claim C4 (witness): `192.0.2.30` is bound to fixed ip 1 whose
address is `10.0.0.5`; associating it to `10.0.0.5` again is a no-op. -/
theorem claim_associate_idempotent_witness :
    associate_floating_ip cfgMain ctxA "192.0.2.30" "10.0.0.5" false none stBound =
      ⟨.ok none, stBound, []⟩ :=
  claim_associate_idempotent cfgMain ctxA "192.0.2.30" "10.0.0.5" false none
    stBound fipBound 1 fxOne (by decide) (by decide) (by decide) (by decide)
    (by decide) (by decide)

/-- Claim C6 (code contradiction): disassociate on a multi-host network
whose instance's host service is registered but down executes locally
with the interface suppressed (passed as none), but
`_disassociate_floating_ip` overrides the suppressed interface with
`CONF.public_interface`; when the latter is set (here `eth0`) the call
clears the store binding and still issues one `remove_floating_ip`
driver call — against the claim and against the code's own comment
("set interface to None so the teardown in the driver does not
happen").  The last conjunct shows the suppression does work when
`public_interface` is unset. -/
theorem claim_dead_service_suppression_bug :
    (disassociate_floating_ip cfgPub ctxA "198.51.100.7" false stDead).out = .ok () ∧
    countDriverCalls
      (disassociate_floating_ip cfgPub ctxA "198.51.100.7" false stDead).events = 1 ∧
    (disassociate_floating_ip cfgPub ctxA "198.51.100.7" false stDead).events =
      [.storeUnbind "198.51.100.7",
       .driverRemove "198.51.100.7" "10.0.0.5" (some "eth0"),
       .notify "disassociate"] ∧
    (floating_ip_get_by_address
        (disassociate_floating_ip cfgPub ctxA "198.51.100.7" false stDead).store
        "198.51.100.7").map FloatingIPRec.fixed_ip_id = some none ∧
    (disassociate_floating_ip cfgMain ctxA "198.51.100.7" false stDead).events =
      [.storeUnbind "198.51.100.7", .notify "disassociate"] := by
  decide

/-- Claim C3: in the local association step, when the L3 driver's add
call raises after the store binding was set, the binding is undone
before the error propagates: the result is `NoFloatingIpInterface` when
the driver message contains "Cannot find device" and the original
`ProcessExecutionError` otherwise, the trace is exactly
bind-add-unbind, and the final store shows the floating ip unbound. -/
theorem claim_driver_failure_rollback (cfg : Cfg)
    (floating_address fixed_address : String) (iface : Option String) (msg : String)
    (st : Store) (rec : FloatingIPRec) (fx : FixedIPRec)
    (hrec : floating_ip_get_by_address st floating_address = some rec)
    (hunbound : rec.fixed_ip_id = none)
    (hfx : fixed_ip_get_by_address st fixed_address = some fx)
    (hfg : fixed_ip_get st fx.id = some fx) :
    (_associate_floating_ip cfg floating_address fixed_address iface (some msg) st).out =
      .error (if containsSub msg "Cannot find device"
        then .NoFloatingIpInterface
          (if cfg.public_interface == "" then iface else some cfg.public_interface)
        else .ProcessExecutionError msg) ∧
    (_associate_floating_ip cfg floating_address fixed_address iface (some msg) st).events =
      [.storeBind floating_address fixed_address,
       .driverAdd floating_address fixed_address
         (if cfg.public_interface == "" then iface else some cfg.public_interface),
       .storeUnbind floating_address] ∧
    (floating_ip_get_by_address
        (_associate_floating_ip cfg floating_address fixed_address iface (some msg) st).store
        floating_address).map FloatingIPRec.fixed_ip_id = some none := by
  have haddr : rec.address = floating_address := flookup_address hrec
  have hb : floating_ip_fixed_ip_associate st floating_address fixed_address cfg.selfHost =
      .ok (some fx, mapFloating st (fun r => if r.address == floating_address then
        { r with fixed_ip_id := some fx.id, host := cfg.selfHost } else r)) := by
    unfold floating_ip_fixed_ip_associate
    simp [hrec, hunbound, hfx]
  have hf1 : ∀ r : FloatingIPRec,
      ((fun r : FloatingIPRec => if r.address == floating_address then
        { r with fixed_ip_id := some fx.id, host := cfg.selfHost } else r) r).address =
        r.address := by
    intro r
    by_cases hr : (r.address == floating_address) = true <;> simp [hr]
  have h1 : floating_ip_get_by_address
      (mapFloating st (fun r => if r.address == floating_address then
        { r with fixed_ip_id := some fx.id, host := cfg.selfHost } else r)) floating_address =
      some { rec with fixed_ip_id := some fx.id, host := cfg.selfHost } := by
    rw [flookup_mapFloating _ _ hf1, hrec]
    simp [haddr]
  have hu : floating_ip_disassociate
      (mapFloating st (fun r => if r.address == floating_address then
        { r with fixed_ip_id := some fx.id, host := cfg.selfHost } else r)) floating_address =
      .ok (some fx,
        mapFloating (mapFloating st (fun r => if r.address == floating_address then
          { r with fixed_ip_id := some fx.id, host := cfg.selfHost } else r))
          (fun r => if r.address == floating_address then
            { r with fixed_ip_id := none } else r)) := by
    unfold floating_ip_disassociate
    rw [h1]
    simp [fixed_ip_get_mapFloating, hfg]
  have hf2 : ∀ r : FloatingIPRec,
      ((fun r : FloatingIPRec => if r.address == floating_address then
        { r with fixed_ip_id := none } else r) r).address = r.address := by
    intro r
    by_cases hr : (r.address == floating_address) = true <;> simp [hr]
  have h2 : floating_ip_get_by_address
      (mapFloating (mapFloating st (fun r => if r.address == floating_address then
        { r with fixed_ip_id := some fx.id, host := cfg.selfHost } else r))
        (fun r => if r.address == floating_address then
          { r with fixed_ip_id := none } else r)) floating_address =
      some { rec with fixed_ip_id := none, host := cfg.selfHost } := by
    rw [flookup_mapFloating _ _ hf2, h1]
    simp [haddr]
  unfold _associate_floating_ip
  simp only [hb, hu, true_and]
  rw [h2]
  rfl

/-- Claim C3 (witness): concrete instance — binding `192.0.2.40` to
`10.0.0.5` with a driver failure whose message names a missing device
raises `NoFloatingIpInterface` and leaves the address unbound. -/
theorem claim_driver_failure_rollback_witness :
    (_associate_floating_ip cfgMain "192.0.2.40" "10.0.0.5" none
        (some "Cannot find device eth0") stFree).out =
      .error (.NoFloatingIpInterface none) ∧
    (_associate_floating_ip cfgMain "192.0.2.40" "10.0.0.5" none
        (some "Cannot find device eth0") stFree).events =
      [.storeBind "192.0.2.40" "10.0.0.5",
       .driverAdd "192.0.2.40" "10.0.0.5" none,
       .storeUnbind "192.0.2.40"] ∧
    (floating_ip_get_by_address
        (_associate_floating_ip cfgMain "192.0.2.40" "10.0.0.5" none
          (some "Cannot find device eth0") stFree).store
        "192.0.2.40").map FloatingIPRec.fixed_ip_id = some none := by
  have h := claim_driver_failure_rollback cfgMain "192.0.2.40" "10.0.0.5" none
    "Cannot find device eth0" stFree fipFree fxOne
    (by decide) (by decide) (by decide) (by decide)
  exact ⟨by rw [h.1]; decide, by rw [h.2.1]; decide, h.2.2⟩

/-- Claim C8: running migrateStart then migrateFinish (same address
list, source different from dest) succeeds, leaves each non-stale
address's recorded host equal to dest, issues zero add calls in the
start phase and exactly one add call per non-stale address in the
finish phase (total: one per non-stale list entry), and skips every
stale address with a warning in both phases without failing. -/
theorem claim_migrate_start_finish (cfg : Cfg) (ctx : Ctx) (iu : String)
    (addrs : List String) (source : Option String) (d : String) (st : Store)
    (hne : addrs ≠ [])
    (hnd : addrs.Nodup)
    (hsrc : source ≠ some d)
    (hok : ∀ a ∈ addrs, migrate_addr_ok st a = true) :
    (migrate_instance_start cfg ctx iu addrs source (some d) st).out = .ok () ∧
    countAdds (migrate_instance_start cfg ctx iu addrs source (some d) st).events = 0 ∧
    (migrate_instance_finish cfg ctx iu addrs none source (some d)
       (migrate_instance_start cfg ctx iu addrs source (some d) st).store).out = .ok () ∧
    countAdds (migrate_instance_finish cfg ctx iu addrs none source (some d)
       (migrate_instance_start cfg ctx iu addrs source (some d) st).store).events =
      (addrs.filter (fun x => !staleAt ctx st x)).length ∧
    (∀ a ∈ addrs, staleAt ctx st a = false →
       (floating_ip_get_by_address (migrate_instance_finish cfg ctx iu addrs none source
          (some d) (migrate_instance_start cfg ctx iu addrs source (some d) st).store).store
          a).map FloatingIPRec.host = some (some d) ∧
       countAddsFor a (migrate_instance_finish cfg ctx iu addrs none source (some d)
          (migrate_instance_start cfg ctx iu addrs source (some d) st).store).events = 1) ∧
    (∀ a ∈ addrs, staleAt ctx st a = true →
       Event.logWarn a ∈ (migrate_instance_start cfg ctx iu addrs source (some d) st).events ∧
       Event.logWarn a ∈ (migrate_instance_finish cfg ctx iu addrs none source (some d)
          (migrate_instance_start cfg ctx iu addrs source (some d) st).store).events) := by
  have hne' : addrs.isEmpty = false := by
    cases addrs with
    | nil => exact absurd rfl hne
    | cons x xs => rfl
  have hguard : (truthyStr source && (source == some d)) = false := by
    cases hsd : source == some d with
    | true => exact absurd (eq_of_beq hsd) hsrc
    | false => simp
  have hS : migrate_instance_start cfg ctx iu addrs source (some d) st =
      migrate_start_loop cfg ctx addrs st := by
    simp [migrate_instance_start, hne', hguard]
  have hF : migrate_instance_finish cfg ctx iu addrs none source (some d)
        (migrate_start_loop cfg ctx addrs st).store =
      migrate_finish_loop cfg ctx (some d) addrs
        (migrate_start_loop cfg ctx addrs st).store := by
    simp [migrate_instance_finish, effective_dest, truthyStr, hne', hguard]
    intro h1 h2
    exact absurd h2 hsrc
  rw [hS, hF]
  obtain ⟨s1, s2, s3, s4, s5⟩ := migrate_start_loop_spec cfg ctx addrs st hok
  have hstale1 : ∀ b, staleAt ctx (migrate_start_loop cfg ctx addrs st).store b =
      staleAt ctx st b := by
    intro b
    unfold staleAt
    rw [s2 b]
    by_cases hc : b ∈ addrs ∧ staleAt ctx st b = false
    · rw [if_pos hc]
      cases hflb : floating_ip_get_by_address st b with
      | none => rfl
      | some rb => simp [is_stale_host_update]
    · rw [if_neg hc]
  have hfix1 : ∀ i, fixed_ip_get (migrate_start_loop cfg ctx addrs st).store i =
      fixed_ip_get st i := fun i => fixed_ip_get_eq_of_fixed_ips s3 i
  have hok1 : ∀ x ∈ addrs,
      migrate_addr_ok (migrate_start_loop cfg ctx addrs st).store x = true := by
    intro x hx
    have hx0 := hok x hx
    unfold migrate_addr_ok
    rw [s2 x]
    by_cases hc : x ∈ addrs ∧ staleAt ctx st x = false
    · rw [if_pos hc]
      cases hflx : floating_ip_get_by_address st x with
      | none =>
        simp only [migrate_addr_ok, hflx] at hx0
        exact Bool.noConfusion hx0
      | some rx =>
        cases hfidx : rx.fixed_ip_id with
        | none => simp [hfidx]
        | some fid =>
          simp only [migrate_addr_ok, hflx, hfidx] at hx0
          simpa [hfidx, hfix1] using hx0
    · rw [if_neg hc]
      cases hflx : floating_ip_get_by_address st x with
      | none =>
        simp only [migrate_addr_ok, hflx] at hx0
        exact Bool.noConfusion hx0
      | some rx =>
        cases hfidx : rx.fixed_ip_id with
        | none => simp [hfidx]
        | some fid =>
          simp only [migrate_addr_ok, hflx, hfidx] at hx0
          simpa [hfidx, hfix1] using hx0
  obtain ⟨f1, f2, f3, f4, f5⟩ := migrate_finish_loop_spec cfg ctx (some d) addrs
    (migrate_start_loop cfg ctx addrs st).store hok1
  have hfilt : addrs.filter
        (fun x => !staleAt ctx (migrate_start_loop cfg ctx addrs st).store x) =
      addrs.filter (fun x => !staleAt ctx st x) := by
    apply List.filter_congr
    intro x _
    rw [hstale1]
  refine ⟨s1, s4, f1, ?_, ?_, ?_⟩
  · rw [← hfilt]
    exact f3
  · intro a ha hns
    have hns1 : staleAt ctx (migrate_start_loop cfg ctx addrs st).store a = false := by
      rw [hstale1]
      exact hns
    constructor
    · rw [f2 a, if_pos ⟨ha, hns1⟩, s2 a, if_pos ⟨ha, hns⟩]
      cases hfla : floating_ip_get_by_address st a with
      | none =>
        exfalso
        unfold staleAt at hns
        rw [hfla] at hns
        exact Bool.noConfusion hns
      | some ra => simp
    · rw [f4 a, hfilt]
      exact List.count_eq_one_of_mem (hnd.filter _)
        (List.mem_filter.mpr ⟨ha, by simp [hns]⟩)
  · intro a ha hst
    exact ⟨s5 a ha hst, f5 a ha (by rw [hstale1]; exact hst)⟩

/-- Claim C8 (witness): concrete two-address migration from `host-a` to
`host-b` where `203.0.113.5` is live and `203.0.113.9` is stale (owned
by another project): both phases succeed, the live address ends with
host `host-b` and exactly one add call, the stale one is warned in both
phases. -/
theorem claim_migrate_start_finish_witness :
    (migrate_instance_start cfgMain ctxA "inst-2" ["203.0.113.5", "203.0.113.9"]
       (some "host-a") (some "host-b") stMigr).out = .ok () ∧
    countAdds (migrate_instance_start cfgMain ctxA "inst-2" ["203.0.113.5", "203.0.113.9"]
       (some "host-a") (some "host-b") stMigr).events = 0 ∧
    (migrate_instance_finish cfgMain ctxA "inst-2" ["203.0.113.5", "203.0.113.9"] none
       (some "host-a") (some "host-b")
       (migrate_instance_start cfgMain ctxA "inst-2" ["203.0.113.5", "203.0.113.9"]
         (some "host-a") (some "host-b") stMigr).store).out = .ok () ∧
    countAdds (migrate_instance_finish cfgMain ctxA "inst-2" ["203.0.113.5", "203.0.113.9"]
       none (some "host-a") (some "host-b")
       (migrate_instance_start cfgMain ctxA "inst-2" ["203.0.113.5", "203.0.113.9"]
         (some "host-a") (some "host-b") stMigr).store).events =
      ((["203.0.113.5", "203.0.113.9"] : List String).filter
        (fun x => !staleAt ctxA stMigr x)).length ∧
    (∀ a ∈ (["203.0.113.5", "203.0.113.9"] : List String), staleAt ctxA stMigr a = false →
       (floating_ip_get_by_address (migrate_instance_finish cfgMain ctxA "inst-2"
          ["203.0.113.5", "203.0.113.9"] none (some "host-a") (some "host-b")
          (migrate_instance_start cfgMain ctxA "inst-2" ["203.0.113.5", "203.0.113.9"]
            (some "host-a") (some "host-b") stMigr).store).store a).map
          FloatingIPRec.host = some (some "host-b") ∧
       countAddsFor a (migrate_instance_finish cfgMain ctxA "inst-2"
          ["203.0.113.5", "203.0.113.9"] none (some "host-a") (some "host-b")
          (migrate_instance_start cfgMain ctxA "inst-2" ["203.0.113.5", "203.0.113.9"]
            (some "host-a") (some "host-b") stMigr).store).events = 1) ∧
    (∀ a ∈ (["203.0.113.5", "203.0.113.9"] : List String), staleAt ctxA stMigr a = true →
       Event.logWarn a ∈ (migrate_instance_start cfgMain ctxA "inst-2"
          ["203.0.113.5", "203.0.113.9"] (some "host-a") (some "host-b") stMigr).events ∧
       Event.logWarn a ∈ (migrate_instance_finish cfgMain ctxA "inst-2"
          ["203.0.113.5", "203.0.113.9"] none (some "host-a") (some "host-b")
          (migrate_instance_start cfgMain ctxA "inst-2" ["203.0.113.5", "203.0.113.9"]
            (some "host-a") (some "host-b") stMigr).store).events) :=
  claim_migrate_start_finish cfgMain ctxA "inst-2" ["203.0.113.5", "203.0.113.9"]
    (some "host-a") "host-b" stMigr (by decide) (by decide) (by decide) (by decide)

/-- Claim C9 (counterexample): with a non-empty address list and both
`source` and `dest` absent, `migrate_instance_start` is not a no-op:
the guard `source and source == dest` is falsy for an absent source, so
the migration body runs (here producing driver and store events). -/
theorem claim_migrate_noop_guard_cex :
    (migrate_instance_start cfgMain ctxAdmin "inst-2" ["203.0.113.5"] none none stMigr).events ≠
      [] := by
  decide

/-- Claim C9 (amended): migrateStart and migrateFinish are no-ops (no
store or driver event, store unchanged) whenever the address list is
empty, or whenever `source` is present (truthy) and equals `dest` (for
finish: equals the effective dest, with `dest` defaulted from `host`
when absent); with both source and dest absent and a non-empty list the
operation is not skipped (see the counterexample). -/
theorem claim_migrate_noop_guard :
    (∀ (cfg : Cfg) (ctx : Ctx) (iu : String) (addrs : List String)
       (source dest : Option String) (st : Store),
       addrs = [] ∨ (truthyStr source = true ∧ source = dest) →
       migrate_instance_start cfg ctx iu addrs source dest st = ⟨.ok (), st, []⟩) ∧
    (∀ (cfg : Cfg) (ctx : Ctx) (iu : String) (addrs : List String)
       (host source dest : Option String) (st : Store),
       addrs = [] ∨ (truthyStr source = true ∧ source = effective_dest host dest) →
       migrate_instance_finish cfg ctx iu addrs host source dest st = ⟨.ok (), st, []⟩) := by
  constructor
  · rintro cfg ctx iu addrs source dest st (rfl | ⟨h1, rfl⟩)
    · simp [migrate_instance_start]
    · simp [migrate_instance_start, h1]
  · rintro cfg ctx iu addrs host source dest st (rfl | ⟨h1, h2⟩)
    · simp [migrate_instance_finish]
    · simp [migrate_instance_finish, h1, ← h2]

/-- Claim C9 (witness): concrete no-op instances of the amended
theorem — an empty list for start, and a truthy source equal to the
effective dest for finish. -/
theorem claim_migrate_noop_guard_witness :
    migrate_instance_start cfgMain ctxAdmin "inst-2" [] (some "host-a") (some "host-b")
      stMigr = ⟨.ok (), stMigr, []⟩ ∧
    migrate_instance_finish cfgMain ctxAdmin "inst-2" ["203.0.113.5"] none
      (some "host-b") (some "host-b") stMigr = ⟨.ok (), stMigr, []⟩ :=
  ⟨claim_migrate_noop_guard.1 cfgMain ctxAdmin "inst-2" [] (some "host-a")
      (some "host-b") stMigr (Or.inl rfl),
   claim_migrate_noop_guard.2 cfgMain ctxAdmin "inst-2" ["203.0.113.5"] none
      (some "host-b") (some "host-b") stMigr (Or.inr ⟨by decide, by decide⟩)⟩

end Nova
